import Mathlib

/-
Verification of the TreasuryVault governance and action-lifecycle core of the
AutoTreasuryAI repository (src/contracts, contract TreasuryVault, Solidity 0.8).

Shallow embedding conventions:
  - addresses and uint256 values are Nat; uint256 overflow is explicit:
    Solidity checked arithmetic that would overflow yields the error
    ArithmeticPanic, and arithmetic inside an unchecked block wraps mod 2^256
    (uadd / usub below);
  - Solidity mappings are total functions with the zero default, exactly as in
    the EVM storage model; the struct default for the pendingActions mapping is
    zeroAction (all fields zero);
  - a reverting call is an Except.error: a revert rolls back every storage
    write of the call, so an error result carries no state, and an ok result
    carries the committed state;
  - keccak256(abi.encodePacked(target, data, value, block.timestamp,
    msg.sender)) is modelled as the injective tuple of its five preimage
    components (collision-free hashing idealisation);
  - the forwarded external call of executeAction is an oracle
    ext : Vault -> Bool that observes the vault state at the instant of the
    call (the checks-effects-interactions intermediate state) and reports
    success or failure;
  - the OpenZeppelin mixins used by the contract are embedded by their
    observable behaviour: AccessControl (role mapping, DEFAULT_ADMIN_ROLE
    administers every role), Pausable (paused flag), ReentrancyGuard (locked
    flag, checked first by every nonReentrant function).
-/

namespace AutoTreasury

/-- 2^256, the modulus of uint256 arithmetic. -/
def UMAX : Nat := 2 ^ 256

/-- Wrapping uint256 addition, for Solidity unchecked blocks. -/
def uadd (a b : Nat) : Nat := (a + b) % UMAX

/-- Wrapping uint256 subtraction, for Solidity unchecked blocks. -/
def usub (a b : Nat) : Nat := (a + (UMAX - b % UMAX)) % UMAX

/-- An address-like identifier; address 0 is the native-BNB sentinel. -/
abbrev Addr := Nat

/-- Opaque calldata bytes. -/
abbrev Bytes := List Nat

/-- enum ActionType of TreasuryVault. -/
inductive ActionType where
  | SwapTokens
  | AddLiquidity
  | SupplyLending
  | Stake
  | Rebalance
  deriving DecidableEq, Repr

/-- An action id: keccak256 of the packed five components, modelled as the
injective tuple (target, data, value, block.timestamp, msg.sender). -/
abbrev ActionId := Addr × Bytes × Nat × Nat × Addr

/-- actionId = keccak256(abi.encodePacked(target, data, value,
block.timestamp, msg.sender)) from proposeAction. -/
def computeActionId (target : Addr) (data : Bytes) (value now sender : Nat) :
    ActionId :=
  (target, data, value, now, sender)

/-- struct Action of TreasuryVault. -/
structure Action where
  target : Addr
  value : Nat
  proposedAt : Nat
  executionTime : Nat
  approvals : Nat
  executed : Bool
  actionType : ActionType
  data : Bytes
  deriving DecidableEq, Repr

/-- The EVM default value of struct Action, returned by the pendingActions
mapping for an absent key. -/
def zeroAction : Action :=
  { target := 0, value := 0, proposedAt := 0, executionTime := 0,
    approvals := 0, executed := false, actionType := .SwapTokens, data := [] }

/-- The roles of the vault: the three keccak role ids declared by
TreasuryVault plus the inherited OpenZeppelin DEFAULT_ADMIN_ROLE. -/
inductive Role where
  | DEFAULT_ADMIN_ROLE
  | OWNER_ROLE
  | EXECUTOR_ROLE
  | AI_AGENT_ROLE
  deriving DecidableEq, Repr

/-- Every custom error the repository can revert with: the ten errors declared
by TreasuryVault, the errors of the inherited OpenZeppelin mixins, the checked
arithmetic panic of Solidity 0.8, and the errors of StrategyExecutor that the
claims mention (InvalidAmount). -/
inductive Err where
  | InsufficientApprovals
  | ActionAlreadyExecuted
  | TimeLockNotExpired
  | UnauthorizedStrategy
  | InsufficientBalance
  | InvalidThreshold
  | InvalidOwnerCount
  | AlreadyApproved
  | ActionNotFound
  | CallFailed
  | AccessControlUnauthorizedAccount
  | EnforcedPause
  | ExpectedPause
  | ReentrancyGuardReentrantCall
  | ArithmeticPanic
  | SafeERC20FailedOperation
  | InvalidAmount
  deriving DecidableEq, Repr

/-- The contract storage of TreasuryVault, plus the Pausable and
ReentrancyGuard flags inherited from OpenZeppelin. -/
structure Vault where
  approvalThreshold : Nat
  ownerCount : Nat
  pendingActions : ActionId → Action
  actionApprovals : ActionId → Addr → Bool
  assetBalances : Addr → Nat
  supportedAssets : List Addr
  approvedStrategies : Addr → Bool
  roles : Role → Addr → Bool
  paused : Bool
  locked : Bool

/-- Point update of the pendingActions mapping. -/
def setAction (m : ActionId → Action) (k : ActionId) (v : Action) :
    ActionId → Action :=
  fun k2 => if k2 = k then v else m k2

/-- Marks (actionId, owner) as approved in the actionApprovals mapping. -/
def setApproval (m : ActionId → Addr → Bool) (k : ActionId) (a : Addr) :
    ActionId → Addr → Bool :=
  fun k2 a2 => if k2 = k ∧ a2 = a then true else m k2 a2

/-- Point update of the assetBalances mapping. -/
def setBal (m : Addr → Nat) (k : Addr) (v : Nat) : Addr → Nat :=
  fun k2 => if k2 = k then v else m k2

/-- Point update of the approvedStrategies mapping. -/
def setStrategy (m : Addr → Bool) (k : Addr) (v : Bool) : Addr → Bool :=
  fun k2 => if k2 = k then v else m k2

/-- Point update of the role mapping. -/
def setRole (m : Role → Addr → Bool) (r : Role) (a : Addr) (v : Bool) :
    Role → Addr → Bool :=
  fun r2 a2 => if r2 = r ∧ a2 = a then v else m r2 a2

/-- AccessControl.hasRole. -/
def hasRole (s : Vault) (r : Role) (a : Addr) : Bool := s.roles r a

/-- constant LARGE_TX_THRESHOLD = 10 (whole percent). -/
def LARGE_TX_THRESHOLD : Nat := 10

/-- constant TIME_LOCK_DELAY = 24 hours = 86400 seconds. -/
def TIME_LOCK_DELAY : Nat := 86400

/-- The all-zero vault, used only as the default of okOr. -/
def emptyVault : Vault :=
  { approvalThreshold := 0, ownerCount := 0,
    pendingActions := fun _ => zeroAction,
    actionApprovals := fun _ _ => false,
    assetBalances := fun _ => 0,
    supportedAssets := [],
    approvedStrategies := fun _ => false,
    roles := fun _ _ => false,
    paused := false, locked := false }

/-- Extracts the ok value of an Except, with a default for the error case;
used only to name concrete states produced by concrete operation chains. -/
def okOr {α : Type} (d : α) : Except Err α → α
  | .ok a => a
  | .error _ => d

/-- The TreasuryVault constructor: rejects an empty owner list and a threshold
outside 1..ownerCount, grants DEFAULT_ADMIN_ROLE to the first owner and
OWNER_ROLE to every owner, and seeds supportedAssets with the native
sentinel address(0). -/
def construct (owners : List Addr) (threshold : Nat) : Except Err Vault :=
  match owners with
  | [] => .error .InvalidOwnerCount
  | o0 :: _ =>
    if threshold = 0 ∨ threshold > owners.length then .error .InvalidThreshold
    else .ok
      { approvalThreshold := threshold,
        ownerCount := owners.length,
        pendingActions := fun _ => zeroAction,
        actionApprovals := fun _ _ => false,
        assetBalances := fun _ => 0,
        supportedAssets := [0],
        approvedStrategies := fun _ => false,
        roles := owners.foldl (fun m o => setRole m .OWNER_ROLE o true)
          (setRole (fun _ _ => false) .DEFAULT_ADMIN_ROLE o0 true),
        paused := false, locked := false }

/-- AccessControl.grantRole: only an address holding the admin role of the
granted role (DEFAULT_ADMIN_ROLE for every role here) may grant. -/
def grantRole (sender : Addr) (role : Role) (account : Addr) (s : Vault) :
    Except Err Vault :=
  if !(hasRole s .DEFAULT_ADMIN_ROLE sender) then
    .error .AccessControlUnauthorizedAccount
  else .ok { s with roles := setRole s.roles role account true }

/-- AccessControl.revokeRole. -/
def revokeRole (sender : Addr) (role : Role) (account : Addr) (s : Vault) :
    Except Err Vault :=
  if !(hasRole s .DEFAULT_ADMIN_ROLE sender) then
    .error .AccessControlUnauthorizedAccount
  else .ok { s with roles := setRole s.roles role account false }

/-- TreasuryVault._isLargeTransaction: reads the tracked native balance; a
zero balance is never large; otherwise compares value * 100 / balance against
LARGE_TX_THRESHOLD. The checked multiplication value * 100 panics above
uint256. -/
def isLargeTransaction (s : Vault) (value : Nat) : Except Err Bool :=
  let bnbBalance := s.assetBalances 0
  if bnbBalance = 0 then .ok false
  else if value * 100 ≥ UMAX then .error .ArithmeticPanic
  else .ok (decide (value * 100 / bnbBalance ≥ LARGE_TX_THRESHOLD))

/-- TreasuryVault.proposeAction: whenNotPaused; requires EXECUTOR_ROLE or
AI_AGENT_ROLE; computes the action id from (target, data, value,
block.timestamp, msg.sender); applies the 24 hour time-lock when value > 0
and the transaction is large; then stores the fresh Action record at the id
unconditionally (overwriting whatever was stored there before). -/
def proposeAction (sender : Addr) (now : Nat) (target : Addr) (data : Bytes)
    (value : Nat) (ty : ActionType) (s : Vault) :
    Except Err (ActionId × Vault) :=
  if s.paused then .error .EnforcedPause
  else if !(hasRole s .EXECUTOR_ROLE sender || hasRole s .AI_AGENT_ROLE sender)
  then .error .AccessControlUnauthorizedAccount
  else
    let actionId := computeActionId target data value now sender
    match (if value > 0 then isLargeTransaction s value else .ok false) with
    | .error e => .error e
    | .ok large =>
      if large ∧ now + TIME_LOCK_DELAY ≥ UMAX then .error .ArithmeticPanic
      else
        let execTime := if large then now + TIME_LOCK_DELAY else now
        let acts :=
          setAction s.pendingActions actionId
            { target := target, value := value, proposedAt := now,
              executionTime := execTime, approvals := 0, executed := false,
              actionType := ty, data := data }
        .ok (actionId, { s with pendingActions := acts })

/-- TreasuryVault.approveAction: onlyRole(OWNER_ROLE); the action must exist
(proposedAt of the zero default is 0), must not be executed, and the sender
must not have approved it before; then records the approver and increments
the approval count (unchecked increment, wrapping). -/
def approveAction (sender : Addr) (actionId : ActionId) (s : Vault) :
    Except Err Vault :=
  if !(hasRole s .OWNER_ROLE sender) then
    .error .AccessControlUnauthorizedAccount
  else
    let action := s.pendingActions actionId
    if action.proposedAt = 0 then .error .ActionNotFound
    else if action.executed then .error .ActionAlreadyExecuted
    else if s.actionApprovals actionId sender then .error .AlreadyApproved
    else .ok { s with
      actionApprovals := setApproval s.actionApprovals actionId sender,
      pendingActions :=
        setAction s.pendingActions actionId
          ({ action with approvals := uadd action.approvals 1 }) }

/-- The vault state at the instant executeAction forwards the external call:
the re-entrancy lock is held and executed = true is already written, but no
other storage write has happened yet (in particular the native balance is
still undebited). -/
def execIntermediate (actionId : ActionId) (s : Vault) : Vault :=
  let acts :=
    setAction s.pendingActions actionId
      { s.pendingActions actionId with executed := true }
  { s with locked := true, pendingActions := acts }

/-- TreasuryVault.executeAction: nonReentrant whenNotPaused; checks existence,
not-yet-executed, approval threshold, time-lock, and the strategy whitelist
(the zero target is exempt); then sets executed = true, forwards the call
(the ext oracle observes the intermediate state), debits the tracked native
balance AFTER the call with an unchecked (wrapping) subtraction when
value > 0, and reverts the whole operation with CallFailed when the forwarded
call failed. -/
def executeAction (ext : Vault → Bool) (now : Nat) (actionId : ActionId)
    (s : Vault) : Except Err Vault :=
  if s.locked then .error .ReentrancyGuardReentrantCall
  else if s.paused then .error .EnforcedPause
  else
    let action := s.pendingActions actionId
    if action.proposedAt = 0 then .error .ActionNotFound
    else if action.executed then .error .ActionAlreadyExecuted
    else if action.approvals < s.approvalThreshold then
      .error .InsufficientApprovals
    else if now < action.executionTime then .error .TimeLockNotExpired
    else if action.target ≠ 0 ∧ s.approvedStrategies action.target = false then
      .error .UnauthorizedStrategy
    else
      let s1 := execIntermediate actionId s
      let success := ext s1
      let s2 := if 0 < action.value then
                  { s1 with assetBalances :=
                      setBal s1.assetBalances 0 (usub (s1.assetBalances 0) action.value) }
                else s1
      if success then .ok { s2 with locked := false }
      else .error .CallFailed

/-- TreasuryVault.deposit (ERC-20): nonReentrant whenNotPaused; a zero amount
reverts with InsufficientBalance; the safe transferFrom of the token is an
oracle boolean; on success the tracked balance is credited with an unchecked
(wrapping) addition. -/
def deposit (transferOk : Bool) (_sender : Addr) (token : Addr) (amount : Nat)
    (s : Vault) : Except Err Vault :=
  if s.locked then .error .ReentrancyGuardReentrantCall
  else if s.paused then .error .EnforcedPause
  else if amount = 0 then .error .InsufficientBalance
  else if !transferOk then .error .SafeERC20FailedOperation
  else .ok { s with assetBalances :=
               setBal s.assetBalances token (uadd (s.assetBalances token) amount) }

/-- TreasuryVault.depositBNB: nonReentrant whenNotPaused; a zero msg.value
reverts with InsufficientBalance; credits the native balance with an
unchecked (wrapping) addition. -/
def depositBNB (_sender : Addr) (msgValue : Nat) (s : Vault) :
    Except Err Vault :=
  if s.locked then .error .ReentrancyGuardReentrantCall
  else if s.paused then .error .EnforcedPause
  else if msgValue = 0 then .error .InsufficientBalance
  else .ok { s with assetBalances :=
               setBal s.assetBalances 0 (uadd (s.assetBalances 0) msgValue) }

/-- The receive() fallback: credits the native balance unconditionally (no
modifier, no zero check). -/
def receiveNative (_sender : Addr) (msgValue : Nat) (s : Vault) : Vault :=
  { s with assetBalances :=
      setBal s.assetBalances 0 (uadd (s.assetBalances 0) msgValue) }

/-- TreasuryVault.emergencyWithdraw: nonReentrant onlyRole(OWNER_ROLE);
reverts with InsufficientBalance when the tracked balance does not cover the
amount; debits the tracked balance before the outgoing transfer; the native
transfer or the safe ERC-20 transfer is an oracle boolean. -/
def emergencyWithdraw (callOk : Bool) (sender : Addr) (token : Addr)
    (_toAddr : Addr) (amount : Nat) (s : Vault) : Except Err Vault :=
  if s.locked then .error .ReentrancyGuardReentrantCall
  else if !(hasRole s .OWNER_ROLE sender) then
    .error .AccessControlUnauthorizedAccount
  else if s.assetBalances token < amount then .error .InsufficientBalance
  else
    let s1 := { s with assetBalances :=
                  setBal s.assetBalances token (s.assetBalances token - amount) }
    if token = 0 then
      if callOk then .ok s1 else .error .CallFailed
    else
      if callOk then .ok s1 else .error .SafeERC20FailedOperation

/-- TreasuryVault.approveStrategy: onlyRole(OWNER_ROLE); whitelists the
strategy target. -/
def approveStrategy (sender : Addr) (strategy : Addr) (s : Vault) :
    Except Err Vault :=
  if !(hasRole s .OWNER_ROLE sender) then
    .error .AccessControlUnauthorizedAccount
  else .ok { s with approvedStrategies := setStrategy s.approvedStrategies strategy true }

/-- TreasuryVault.addSupportedAsset: onlyRole(OWNER_ROLE); silently returns
when the token is already listed, otherwise appends it. -/
def addSupportedAsset (sender : Addr) (token : Addr) (s : Vault) :
    Except Err Vault :=
  if !(hasRole s .OWNER_ROLE sender) then
    .error .AccessControlUnauthorizedAccount
  else if s.supportedAssets.contains token then .ok s
  else .ok { s with supportedAssets := s.supportedAssets ++ [token] }

/-- TreasuryVault.pause: onlyRole(OWNER_ROLE) and Pausable._pause. -/
def pause (sender : Addr) (s : Vault) : Except Err Vault :=
  if !(hasRole s .OWNER_ROLE sender) then
    .error .AccessControlUnauthorizedAccount
  else if s.paused then .error .EnforcedPause
  else .ok { s with paused := true }

/-- TreasuryVault.unpause: onlyRole(OWNER_ROLE) and Pausable._unpause. -/
def unpause (sender : Addr) (s : Vault) : Except Err Vault :=
  if !(hasRole s .OWNER_ROLE sender) then
    .error .AccessControlUnauthorizedAccount
  else if !s.paused then .error .ExpectedPause
  else .ok { s with paused := false }

/-- struct AllocationItem of TreasuryVault. -/
structure AllocationItem where
  asset : Addr
  amount : Nat
  percentage : Nat
  valueUSD : Nat
  deriving DecidableEq, Repr

/-- The denominator of getAllocation: the sum of the tracked balances of all
supported assets. -/
def totalBalance (s : Vault) : Nat :=
  (s.supportedAssets.map s.assetBalances).sum

/-- TreasuryVault.getAllocation: sums the balances of the supported assets
(checked additions), then reports each balance and its share in basis points,
bal * 10000 / total (checked multiplication), guarding the division with
totalBalance > 0. -/
def getAllocation (s : Vault) : Except Err (List AllocationItem) :=
  if totalBalance s ≥ UMAX then .error .ArithmeticPanic
  else if s.supportedAssets.any (fun a => decide (s.assetBalances a * 10000 ≥ UMAX))
  then .error .ArithmeticPanic
  else .ok (s.supportedAssets.map fun a =>
    { asset := a, amount := s.assetBalances a,
      percentage := if totalBalance s > 0 then
          s.assetBalances a * 10000 / totalBalance s
        else 0,
      valueUSD := 0 })

/-- One externally callable state-changing entry point of the vault, with its
call arguments and the oracles for its external interactions. -/
inductive Op where
  | propose (sender : Addr) (target : Addr) (data : Bytes) (value : Nat)
      (ty : ActionType)
  | approve (sender : Addr) (actionId : ActionId)
  | execute (ext : Vault → Bool) (actionId : ActionId)
  | depositBNB (sender : Addr) (msgValue : Nat)
  | deposit (transferOk : Bool) (sender : Addr) (token : Addr) (amount : Nat)
  | receiveBNB (sender : Addr) (msgValue : Nat)
  | emergencyWithdraw (callOk : Bool) (sender : Addr) (token : Addr)
      (toAddr : Addr) (amount : Nat)
  | approveStrategy (sender : Addr) (strategy : Addr)
  | addSupportedAsset (sender : Addr) (token : Addr)
  | grantRole (sender : Addr) (role : Role) (account : Addr)
  | revokeRole (sender : Addr) (role : Role) (account : Addr)
  | pause (sender : Addr)
  | unpause (sender : Addr)

/-- Dispatches an entry point at block timestamp now. -/
def applyOp (now : Nat) (op : Op) (s : Vault) : Except Err Vault :=
  match op with
  | .propose sender target data value ty =>
    (proposeAction sender now target data value ty s).map Prod.snd
  | .approve sender actionId => approveAction sender actionId s
  | .execute ext actionId => executeAction ext now actionId s
  | .depositBNB sender v => depositBNB sender v s
  | .deposit transferOk sender token amount =>
    deposit transferOk sender token amount s
  | .receiveBNB sender v => .ok (receiveNative sender v s)
  | .emergencyWithdraw callOk sender token toAddr amount =>
    emergencyWithdraw callOk sender token toAddr amount s
  | .approveStrategy sender strategy => approveStrategy sender strategy s
  | .addSupportedAsset sender token => addSupportedAsset sender token s
  | .grantRole sender role account => grantRole sender role account s
  | .revokeRole sender role account => revokeRole sender role account s
  | .pause sender => pause sender s
  | .unpause sender => unpause sender s

/-- A vault state together with the timestamp of the last committed block. -/
structure Chain where
  vault : Vault
  time : Nat

/-- One successful transaction at a block timestamp that is not earlier than
the previous one (several transactions may share a timestamp, as several
transactions share one block on chain). -/
inductive Step : Chain → Chain → Prop where
  | mk (now : Nat) (op : Op) (c : Chain) (v2 : Vault) :
      c.time ≤ now → applyOp now op c.vault = .ok v2 → Step c ⟨v2, now⟩

/-- Reachability of one chain state from another by successful transactions. -/
def Reachable (c0 c : Chain) : Prop := Relation.ReflTransGen Step c0 c

/-! Helper lemmas about the mapping updates and the operations. -/

lemma setAction_same (m : ActionId → Action) (k : ActionId) (v : Action) :
    setAction m k v k = v := by
  simp [setAction]

lemma setApproval_same (m : ActionId → Addr → Bool) (k : ActionId) (a : Addr) :
    setApproval m k a k a = true := by
  simp [setApproval]

lemma reachStep {c0 c : Chain} (now : Nat) (op : Op) (v2 : Vault)
    (h : Reachable c0 c) (ht : c.time ≤ now)
    (happ : applyOp now op c.vault = .ok v2) : Reachable c0 ⟨v2, now⟩ :=
  Relation.ReflTransGen.tail h (Step.mk now op c v2 ht happ)

/-! Concrete states used by the claim theorems: a vault constructed with the
single owner (and admin) address 7 and approval threshold 1, to which the
admin grants EXECUTOR_ROLE so that address 7 may propose. -/

/-- An external-call oracle that always succeeds. -/
def extTrue : Vault → Bool := fun _ => true

/-- An external-call oracle that always fails. -/
def extFalse : Vault → Bool := fun _ => false

/-- construct([7], 1). -/
def baseVault : Vault := okOr emptyVault (construct [7] 1)

/-- baseVault after grantRole(EXECUTOR_ROLE, 7) by the admin 7. -/
def execVault : Vault := okOr emptyVault (grantRole 7 .EXECUTOR_ROLE 7 baseVault)

/-- The id of an action proposed by 7 at timestamp 1 with target 0, empty
data and value 0. -/
def c1id : ActionId := computeActionId 0 [] 0 1 7

/-- execVault after that proposal. -/
def c1proposed : Vault :=
  okOr emptyVault ((proposeAction 7 1 0 [] 0 .Stake execVault).map Prod.snd)

/-- c1proposed after approveAction by owner 7: the action is fully approved
and executable at timestamp 1. -/
def c1approved : Vault := okOr emptyVault (approveAction 7 c1id c1proposed)

example : executeAction extFalse 1 c1id c1approved = .error .CallFailed := rfl

example : executeAction extTrue 1 c1id c1approved =
    .ok (okOr emptyVault (executeAction extTrue 1 c1id c1approved)) := rfl

/-- The state committed by a successful executeAction: the intermediate state
(executed = true), with the native balance debited after the call when
value > 0, and the re-entrancy lock released. -/
def execFinal (actionId : ActionId) (s : Vault) : Vault :=
  let s1 := execIntermediate actionId s
  let v := (s.pendingActions actionId).value
  let bals := setBal s1.assetBalances 0 (usub (s1.assetBalances 0) v)
  let s2 := if 0 < v then { s1 with assetBalances := bals } else s1
  { s2 with locked := false }

/-- When every precondition of executeAction holds, the result is decided by
the forwarded call observed at the intermediate state: success commits
execFinal, failure reverts the whole operation with CallFailed. -/
lemma executeAction_run (ext : Vault → Bool) (now : Nat) (actionId : ActionId)
    (s : Vault)
    (hl : s.locked = false) (hp : s.paused = false)
    (hex : (s.pendingActions actionId).proposedAt ≠ 0)
    (hne : (s.pendingActions actionId).executed = false)
    (hap : s.approvalThreshold ≤ (s.pendingActions actionId).approvals)
    (htl : (s.pendingActions actionId).executionTime ≤ now)
    (hwl : (s.pendingActions actionId).target = 0 ∨
      s.approvedStrategies ((s.pendingActions actionId).target) = true) :
    executeAction ext now actionId s =
      if ext (execIntermediate actionId s) then .ok (execFinal actionId s)
      else .error .CallFailed := by
  have hwl2 : ¬ ((s.pendingActions actionId).target ≠ 0 ∧
      s.approvedStrategies ((s.pendingActions actionId).target) = false) := by
    rcases hwl with h | h
    · intro hc; exact hc.1 h
    · intro hc; rw [h] at hc; exact absurd hc.2 (by simp)
  unfold executeAction
  rw [if_neg (by simp [hl]), if_neg (by simp [hp])]
  dsimp only
  rw [if_neg hex, if_neg (by simp [hne]), if_neg (Nat.not_lt.mpr hap),
    if_neg (Nat.not_lt.mpr htl), if_neg hwl2]
  by_cases hc : ext (execIntermediate actionId s) = true
  · rw [if_pos hc, if_pos hc]
    rfl
  · rw [if_neg hc, if_neg hc]

lemma c1approved_reachable : Reachable ⟨baseVault, 0⟩ ⟨c1approved, 1⟩ :=
  reachStep 1 (.approve 7 c1id) c1approved
    (reachStep 1 (.propose 7 0 [] 0 .Stake) c1proposed
      (reachStep 1 (.grantRole 7 .EXECUTOR_ROLE 7) execVault
        Relation.ReflTransGen.refl (Nat.zero_le 1) rfl)
      (Nat.le_refl 1) rfl)
    (Nat.le_refl 1) rfl

/-- c1approved after a successful execution. -/
def c1executed : Vault := okOr emptyVault (executeAction extTrue 1 c1id c1approved)

/-- C1: refuted. The claim states that when the execute preconditions hold
and the forwarded call fails, the operation still commits executed = true and
the ledger debit, reporting the failure only through the Executed event. In
the code the failure branch reverts the whole transaction with CallFailed
(line: if not success revert CallFailed), rolling back every state write of
the call, including executed = true and the event. Concretely: c1approved is
reachable, the action c1id satisfies every execute precondition, the
forwarded call fails (extFalse), and executeAction reverts with CallFailed,
committing nothing; the same action can afterwards still be executed
successfully, so it was not consumed by the failing attempt. -/
theorem C1_counterexample :
    Reachable ⟨baseVault, 0⟩ ⟨c1approved, 1⟩ ∧
    (c1approved.pendingActions c1id).proposedAt = 1 ∧
    (c1approved.pendingActions c1id).executed = false ∧
    c1approved.approvalThreshold ≤ (c1approved.pendingActions c1id).approvals ∧
    (c1approved.pendingActions c1id).executionTime ≤ 1 ∧
    (c1approved.pendingActions c1id).target = 0 ∧
    executeAction extFalse 1 c1id c1approved = .error .CallFailed ∧
    executeAction extTrue 1 c1id c1approved = .ok c1executed ∧
    (c1executed.pendingActions c1id).executed = true :=
  ⟨c1approved_reachable, rfl, rfl, by decide, by decide, rfl, rfl, rfl, rfl⟩

/-- C1 (amended): when every execute precondition holds and the forwarded
call fails, executeAction reverts the entire operation with CallFailed: the
executed flag, the ledger debit and the Executed event are all rolled back
and the action is not consumed; only a successful forwarded call commits
executed = true (and the debit). -/
theorem C1_call_failure_reverts (ext : Vault → Bool) (now : Nat)
    (actionId : ActionId) (s : Vault)
    (hl : s.locked = false) (hp : s.paused = false)
    (hex : (s.pendingActions actionId).proposedAt ≠ 0)
    (hne : (s.pendingActions actionId).executed = false)
    (hap : s.approvalThreshold ≤ (s.pendingActions actionId).approvals)
    (htl : (s.pendingActions actionId).executionTime ≤ now)
    (hwl : (s.pendingActions actionId).target = 0 ∨
      s.approvedStrategies ((s.pendingActions actionId).target) = true)
    (hcall : ext (execIntermediate actionId s) = false) :
    executeAction ext now actionId s = .error .CallFailed := by
  rw [executeAction_run ext now actionId s hl hp hex hne hap htl hwl,
    if_neg (by simp [hcall])]

/-- Witness for C1_call_failure_reverts at the concrete reachable state
c1approved with the always-failing call oracle. -/
theorem C1_call_failure_reverts_witness :
    executeAction extFalse 1 c1id c1approved = .error .CallFailed :=
  C1_call_failure_reverts extFalse 1 c1id c1approved rfl rfl
    (by decide) rfl (by decide) (by decide) (Or.inl rfl) rfl


/-- Characterisation of a successful approveAction: the preconditions that
must have held and the committed state. -/
lemma approveAction_ok_spec {sender : Addr} {actionId : ActionId} {s s2 : Vault}
    (h : approveAction sender actionId s = .ok s2) :
    hasRole s .OWNER_ROLE sender = true ∧
    (s.pendingActions actionId).proposedAt ≠ 0 ∧
    (s.pendingActions actionId).executed = false ∧
    s.actionApprovals actionId sender = false ∧
    s2 = { s with
      actionApprovals := setApproval s.actionApprovals actionId sender,
      pendingActions :=
        setAction s.pendingActions actionId
          ({ s.pendingActions actionId with
             approvals := uadd (s.pendingActions actionId).approvals 1 }) } := by
  unfold approveAction at h
  split at h
  · cases h
  · rename_i hrole
    dsimp only at h
    split at h
    · cases h
    · split at h
      · cases h
      · split at h
        · cases h
        · rename_i hex hdone happ
          refine ⟨by simpa using hrole, hex, by simpa using hdone,
            by simpa using happ, ?_⟩
          exact (Except.ok.inj h).symm

/-- C5: confirmed. After one successful approval of an action by an owner, a
second approveAction by the same identity on the same actionId reverts with
AlreadyApproved; the revert commits nothing, so the approval count (and the
approver set) stay at the values reached by the first approval. -/
theorem C5_double_approve (sender : Addr) (actionId : ActionId) (s s2 : Vault)
    (h : approveAction sender actionId s = .ok s2) :
    approveAction sender actionId s2 = .error .AlreadyApproved := by
  obtain ⟨hrole, hex, hne, -, hs2⟩ := approveAction_ok_spec h
  subst hs2
  unfold approveAction
  rw [if_neg (by simp [hasRole] at hrole ⊢; exact hrole)]
  dsimp only
  rw [setAction_same]
  rw [if_neg (by simpa using hex), if_neg (by simp [hne]), if_pos (by rw [setApproval_same])]

/-- Witness for C5_double_approve: owner 7 approved c1id once (turning
c1proposed into c1approved); a second approval by 7 reverts
AlreadyApproved. -/
theorem C5_double_approve_witness :
    approveAction 7 c1id c1approved = .error .AlreadyApproved :=
  C5_double_approve 7 c1id c1proposed c1approved rfl

/-- The largeness test evaluated inside proposeAction, characterised: it
accepts exactly when value > 0, the native balance is non-zero and
value * 100 / balance reaches the 10 percent threshold. -/
lemma large_char {s : Vault} {value : Nat} {large : Bool}
    (heq : (if value > 0 then isLargeTransaction s value else .ok false) =
      .ok large) :
    large = true ↔
      (0 < value ∧ s.assetBalances 0 ≠ 0 ∧
        10 ≤ value * 100 / s.assetBalances 0) := by
  split at heq
  · rename_i hv
    unfold isLargeTransaction at heq
    dsimp only at heq
    split at heq
    · rename_i hb0
      have hlf : false = large := Except.ok.inj heq
      simp [← hlf, hb0]
    · split at heq
      · cases heq
      · rename_i hb0 hof
        have hl : decide (value * 100 / s.assetBalances 0 ≥ LARGE_TX_THRESHOLD) =
            large := Except.ok.inj heq
        rw [← hl]
        simp [LARGE_TX_THRESHOLD, hv, hb0, ge_iff_le]
  · rename_i hv
    have hlf : false = large := Except.ok.inj heq
    simp [← hlf]
    intro h0
    exact absurd h0 hv

/-- Characterisation of a successful proposeAction: the returned id is the
hash of (target, data, value, timestamp, sender) and the stored action is the
fresh record with approvals 0, executed false, proposedAt = now, and the
executable time given by the time-lock policy evaluated on the balance at
proposal time. The record is stored unconditionally, whatever was at the id
before. -/
lemma proposeAction_ok_spec {sender : Addr} {now : Nat} {target : Addr}
    {data : Bytes} {value : Nat} {ty : ActionType} {s : Vault}
    {actionId : ActionId} {s2 : Vault}
    (h : proposeAction sender now target data value ty s = .ok (actionId, s2)) :
    actionId = computeActionId target data value now sender ∧
    s2.pendingActions actionId =
      { target := target, value := value, proposedAt := now,
        executionTime :=
          if 0 < value ∧ s.assetBalances 0 ≠ 0 ∧
              10 ≤ value * 100 / s.assetBalances 0 then now + TIME_LOCK_DELAY
          else now,
        approvals := 0, executed := false, actionType := ty, data := data } := by
  unfold proposeAction at h
  split at h
  · cases h
  · split at h
    · cases h
    · dsimp only at h
      split at h
      · cases h
      · rename_i large heq
        split at h
        · cases h
        · have hpair := Except.ok.inj h
          have hid : actionId = computeActionId target data value now sender :=
            (congrArg Prod.fst hpair).symm
          subst hid
          refine ⟨rfl, ?_⟩
          have hs2p := congrArg
            (fun q : ActionId × Vault => (Prod.snd q).pendingActions) hpair
          dsimp only at hs2p
          rw [← hs2p, setAction_same]
          have hlc := large_char heq
          by_cases hc : 0 < value ∧ s.assetBalances 0 ≠ 0 ∧
              10 ≤ value * 100 / s.assetBalances 0
          · rw [if_pos hc, if_pos (hlc.mpr hc)]
          · have hlf : large = false := by
              cases large
              · rfl
              · exact absurd (hlc.mp rfl) hc
            rw [if_neg hc, hlf]
            rfl

/-- C4: confirmed. For every proposal accepted by proposeAction the stored
executableAt is not earlier than proposedAt; it equals proposedAt exactly
when the native balance at proposal time was 0 or the integer ratio
value * 100 / nativeBalance was below the large-transaction threshold 10;
otherwise it equals proposedAt + 24 hours (86400 seconds). -/
theorem C4_timelock_policy (sender : Addr) (now : Nat) (target : Addr)
    (data : Bytes) (value : Nat) (ty : ActionType) (s : Vault)
    (actionId : ActionId) (s2 : Vault)
    (h : proposeAction sender now target data value ty s = .ok (actionId, s2)) :
    (s2.pendingActions actionId).proposedAt = now ∧
    now ≤ (s2.pendingActions actionId).executionTime ∧
    ((s2.pendingActions actionId).executionTime = now ↔
      (s.assetBalances 0 = 0 ∨ value * 100 / s.assetBalances 0 < 10)) ∧
    ((s2.pendingActions actionId).executionTime ≠ now →
      (s2.pendingActions actionId).executionTime = now + 86400) := by
  obtain ⟨-, hrec⟩ := proposeAction_ok_spec h
  rw [hrec]
  by_cases hc : 0 < value ∧ s.assetBalances 0 ≠ 0 ∧
      10 ≤ value * 100 / s.assetBalances 0
  · rw [if_pos hc]
    refine ⟨rfl, by dsimp only; omega, ?_, fun _ => by simp [TIME_LOCK_DELAY]⟩
    constructor
    · intro he
      exact absurd he (by simp [TIME_LOCK_DELAY])
    · intro hr
      exfalso
      rcases hr with hb | hlt
      · exact hc.2.1 hb
      · omega
  · rw [if_neg hc]
    refine ⟨rfl, Nat.le_refl now, ?_, fun hne => absurd rfl hne⟩
    constructor
    · intro _
      by_cases hv : 0 < value
      · by_cases hb : s.assetBalances 0 = 0
        · exact Or.inl hb
        · right
          have hnr : ¬ (10 ≤ value * 100 / s.assetBalances 0) :=
            fun hr => hc ⟨hv, hb, hr⟩
          omega
      · right
        have hv0 : value = 0 := by omega
        subst hv0
        simp
    · intro _
      rfl

/-- Witness for C4_timelock_policy: the concrete zero-value proposal that
produced c1proposed has executableAt equal to proposedAt = 1. -/
theorem C4_timelock_policy_witness :
    (c1proposed.pendingActions c1id).proposedAt = 1 ∧
    1 ≤ (c1proposed.pendingActions c1id).executionTime ∧
    ((c1proposed.pendingActions c1id).executionTime = 1 ↔
      (execVault.assetBalances 0 = 0 ∨ 0 * 100 / execVault.assetBalances 0 < 10)) ∧
    ((c1proposed.pendingActions c1id).executionTime ≠ 1 →
      (c1proposed.pendingActions c1id).executionTime = 1 + 86400) :=
  C4_timelock_policy 7 1 0 [] 0 .Stake execVault c1id c1proposed rfl

/-- The state produced by re-proposing (at the same timestamp, with the same
arguments) the action already stored and approved in c1approved. -/
def c6repro : Vault :=
  okOr emptyVault ((proposeAction 7 1 0 [] 0 .Stake c1approved).map Prod.snd)

/-- C6: refuted in its no-collision / append-only part. Two distinct
proposeAction calls with the same (target, payload, value, timestamp,
proposer) produce the SAME identifier, and the second call overwrites the
stored action: starting from c1approved (where action c1id has one
approval), a second propose call with the same five inputs is accepted,
returns the same id c1id, and resets the stored approvals from 1 to 0 —
the store is not append-only and the earlier approval record is destroyed. -/
theorem C6_counterexample :
    (c1approved.pendingActions c1id).approvals = 1 ∧
    proposeAction 7 1 0 [] 0 .Stake c1approved = .ok (c1id, c6repro) ∧
    (c6repro.pendingActions c1id).approvals = 0 ∧
    (c6repro.pendingActions c1id).proposedAt = 1 :=
  ⟨rfl, rfl, rfl, rfl⟩

/-- C6 (amended): the identifier is a deterministic and (under collision-free
hashing) injective function of (target, payload, value, timestamp, proposer):
colliding ids force component-wise equal inputs. But the store is not
append-only: every accepted proposeAction stores the fresh record (approvals
0, executed false) at its id unconditionally, so a later propose call whose
five inputs repeat an earlier one overwrites the stored action instead of
preserving it. -/
theorem C6_id_deterministic_store_overwrites
    (t t2 : Addr) (d d2 : Bytes) (v v2 ts ts2 : Nat) (p p2 : Addr)
    (sender : Addr) (now : Nat) (target : Addr) (data : Bytes) (value : Nat)
    (ty : ActionType) (s : Vault) (actionId : ActionId) (s2 : Vault)
    (hcol : computeActionId t d v ts p = computeActionId t2 d2 v2 ts2 p2)
    (h : proposeAction sender now target data value ty s = .ok (actionId, s2)) :
    (t = t2 ∧ d = d2 ∧ v = v2 ∧ ts = ts2 ∧ p = p2) ∧
    actionId = computeActionId target data value now sender ∧
    (s2.pendingActions actionId).approvals = 0 ∧
    (s2.pendingActions actionId).executed = false ∧
    (s2.pendingActions actionId).proposedAt = now := by
  obtain ⟨hid, hrec⟩ := proposeAction_ok_spec h
  refine ⟨?_, hid, by rw [hrec], by rw [hrec], by rw [hrec]⟩
  simpa [computeActionId, Prod.ext_iff] using hcol

/-- Witness for C6_id_deterministic_store_overwrites at the colliding
re-proposal that produced c6repro. -/
theorem C6_id_deterministic_store_overwrites_witness :
    c1id = computeActionId 0 [] 0 1 7 ∧
    (c6repro.pendingActions c1id).approvals = 0 :=
  ⟨rfl, (C6_id_deterministic_store_overwrites 0 0 [] [] 0 0 1 1 7 7
    7 1 0 [] 0 .Stake c1approved c1id c6repro rfl rfl).2.2.1⟩

/-! Concrete trace for C2: a vault with owners 7 and 8, threshold 1. Owner 7
(also admin and, after the grant, executor) proposes a zero-value sentinel
action at timestamp 1, approves it and executes it. A second propose call in
the same block (same timestamp, same arguments) yields the same id and
overwrites the executed action with a fresh unexecuted record; owner 8
approves it and the same actionId is executed a second time. -/

/-- construct([7, 8], 1). -/
def base2Vault : Vault := okOr emptyVault (construct [7, 8] 1)

/-- base2Vault after grantRole(EXECUTOR_ROLE, 7) by the admin 7. -/
def exec2Vault : Vault :=
  okOr emptyVault (grantRole 7 .EXECUTOR_ROLE 7 base2Vault)

/-- The id of the action proposed by 7 at timestamp 1 (target 0, no data,
value 0): identical for both propose calls of the trace. -/
def c2id : ActionId := computeActionId 0 [] 0 1 7

/-- exec2Vault after the first propose call. -/
def c2proposed : Vault :=
  okOr emptyVault ((proposeAction 7 1 0 [] 0 .Stake exec2Vault).map Prod.snd)

/-- c2proposed after approveAction by owner 7. -/
def c2approved : Vault := okOr emptyVault (approveAction 7 c2id c2proposed)

/-- c2approved after the first successful execution of c2id. -/
def c2executed : Vault :=
  okOr emptyVault (executeAction extTrue 1 c2id c2approved)

/-- c2executed after the second (overwriting) propose call. -/
def c2reproposed : Vault :=
  okOr emptyVault ((proposeAction 7 1 0 [] 0 .Stake c2executed).map Prod.snd)

/-- c2reproposed after approveAction by owner 8. -/
def c2reapproved : Vault :=
  okOr emptyVault (approveAction 8 c2id c2reproposed)

/-- c2reapproved after the second successful execution of c2id. -/
def c2reexecuted : Vault :=
  okOr emptyVault (executeAction extTrue 1 c2id c2reapproved)

lemma c2reexecuted_reachable : Reachable ⟨base2Vault, 0⟩ ⟨c2reexecuted, 1⟩ :=
  reachStep 1 (.execute extTrue c2id) c2reexecuted
    (reachStep 1 (.approve 8 c2id) c2reapproved
      (reachStep 1 (.propose 7 0 [] 0 .Stake) c2reproposed
        (reachStep 1 (.execute extTrue c2id) c2executed
          (reachStep 1 (.approve 7 c2id) c2approved
            (reachStep 1 (.propose 7 0 [] 0 .Stake) c2proposed
              (reachStep 1 (.grantRole 7 .EXECUTOR_ROLE 7) exec2Vault
                Relation.ReflTransGen.refl (Nat.zero_le 1) rfl)
              (Nat.le_refl 1) rfl)
            (Nat.le_refl 1) rfl)
          (Nat.le_refl 1) rfl)
        (Nat.le_refl 1) rfl)
      (Nat.le_refl 1) rfl)
    (Nat.le_refl 1) rfl

/-- C2: the code violates the claim. After the first successful
executeAction of c2id, a propose call with identical (target, payload,
value, proposer) in the same block (same timestamp) re-creates c2id with
executed = false, and a subsequent executeAction of the SAME actionId
succeeds instead of reverting ActionAlreadyExecuted: the action is executed
twice in a reachable trace. The execute-once intent is stated by the spec
and by the code itself (the ActionAlreadyExecuted guard, the comment calling
the returned hash unique); the unconditional store in proposeAction is the
slip that breaks it. -/
theorem C2_double_execution :
    executeAction extTrue 1 c2id c2approved = .ok c2executed ∧
    (c2executed.pendingActions c2id).executed = true ∧
    proposeAction 7 1 0 [] 0 .Stake c2executed = .ok (c2id, c2reproposed) ∧
    (c2reproposed.pendingActions c2id).executed = false ∧
    approveAction 8 c2id c2reproposed = .ok c2reapproved ∧
    executeAction extTrue 1 c2id c2reapproved = .ok c2reexecuted ∧
    Reachable ⟨base2Vault, 0⟩ ⟨c2reexecuted, 1⟩ :=
  ⟨rfl, rfl, rfl, rfl, rfl, rfl, c2reexecuted_reachable⟩

/-! Concrete state for C3: the single-owner vault funded with 100 native
units, holding a fully approved action of value 5 (5 percent, below the
large-transaction threshold, so executable immediately). -/

/-- execVault after depositBNB of 100 by 7. -/
def c3funded : Vault := okOr emptyVault (depositBNB 7 100 execVault)

/-- The id of the value-5 action proposed by 7 at timestamp 1. -/
def c3id : ActionId := computeActionId 0 [] 5 1 7

/-- c3funded after the value-5 proposal. -/
def c3proposed : Vault :=
  okOr emptyVault ((proposeAction 7 1 0 [] 5 .Stake c3funded).map Prod.snd)

/-- c3proposed after approveAction by owner 7. -/
def c3approved : Vault := okOr emptyVault (approveAction 7 c3id c3proposed)

/-- The state the forwarded call of executeAction observes for c3id. -/
def c3mid : Vault := execIntermediate c3id c3approved

/-- A forwarded-call oracle that succeeds exactly when the tracked native
balance it observes is the UNDEBITED 100. -/
def extSees100 : Vault → Bool := fun st => st.assetBalances 0 == 100

/-- c3approved after execution with the balance-observing oracle. -/
def c3post : Vault :=
  okOr emptyVault (executeAction extSees100 1 c3id c3approved)

/-- C3: the code violates the claim (and its own checks-effects-interactions
comment). executed = true is indeed written before the forwarded call, but
the native-ledger debit happens AFTER the call: the oracle that succeeds only
on seeing the undebited balance 100 makes the execution succeed, proving the
call observed 100 (not 95), while the committed post-state holds 95. A
synchronous re-entrant executeAction on the same actionId during the call
fails — but with the ReentrancyGuard error of the nonReentrant modifier, not
AlreadyExecuted; with the lock ignored it would fail ActionAlreadyExecuted,
showing the executed flag alone suffices. -/
theorem C3_debit_after_call :
    c3approved.assetBalances 0 = 100 ∧
    (c3approved.pendingActions c3id).value = 5 ∧
    (c3mid.pendingActions c3id).executed = true ∧
    c3mid.assetBalances 0 = 100 ∧
    executeAction extSees100 1 c3id c3approved = .ok c3post ∧
    c3post.assetBalances 0 = 95 ∧
    executeAction extTrue 1 c3id c3mid = .error .ReentrancyGuardReentrantCall ∧
    executeAction extTrue 1 c3id { c3mid with locked := false } =
      .error .ActionAlreadyExecuted :=
  ⟨rfl, rfl, rfl, rfl, rfl, by decide, rfl, rfl⟩

/-- A successful executeAction implies the whitelist gate passed: the target
was the zero sentinel or a whitelisted strategy. -/
lemma executeAction_ok_spec {ext : Vault → Bool} {now : Nat}
    {actionId : ActionId} {s s2 : Vault}
    (h : executeAction ext now actionId s = .ok s2) :
    (s.pendingActions actionId).target = 0 ∨
    s.approvedStrategies ((s.pendingActions actionId).target) = true := by
  unfold executeAction at h
  split at h
  · cases h
  · split at h
    · cases h
    · dsimp only at h
      split at h
      · cases h
      · split at h
        · cases h
        · split at h
          · cases h
          · split at h
            · cases h
            · split at h
              · cases h
              · rename_i hcond
                by_cases h0 : (s.pendingActions actionId).target = 0
                · exact Or.inl h0
                · right
                  cases hb : s.approvedStrategies
                      ((s.pendingActions actionId).target)
                  · exact absurd ⟨h0, hb⟩ hcond
                  · rfl

/-! Concrete state for C8: the single-owner vault with a fully approved action
whose target 5 was never whitelisted, and a second action with target 5 and
zero approvals. -/

/-- The id of the target-5 action proposed by 7 at timestamp 1. -/
def c8id : ActionId := computeActionId 5 [] 0 1 7

/-- execVault after proposing the target-5 action (approvals 0). -/
def c8proposed : Vault :=
  okOr emptyVault ((proposeAction 7 1 5 [] 0 .Stake execVault).map Prod.snd)

/-- c8proposed after approveAction by owner 7 (approvals 1 = threshold). -/
def c8approved : Vault := okOr emptyVault (approveAction 7 c8id c8proposed)

/-- C8: refuted in its regardless-of-state part. With approvals below the
threshold, executeAction on the never-whitelisted non-sentinel target 5
reverts with InsufficientApprovals, not UnauthorizedStrategy: the approval
check precedes the whitelist check in the code, so the promised error does
not occur regardless of approval state. -/
theorem C8_counterexample :
    (c8proposed.pendingActions c8id).target = 5 ∧
    c8proposed.approvedStrategies 5 = false ∧
    (c8proposed.pendingActions c8id).approvals = 0 ∧
    c8proposed.approvalThreshold = 1 ∧
    executeAction extTrue 1 c8id c8proposed = .error .InsufficientApprovals ∧
    Err.InsufficientApprovals ≠ Err.UnauthorizedStrategy :=
  ⟨rfl, rfl, rfl, rfl, rfl, by decide⟩

/-- C8 (amended): executeAction on an action whose target is non-sentinel and
not whitelisted never succeeds; it reverts with UnauthorizedStrategy exactly
when every earlier check passes (not locked, not paused, action exists,
not executed, approvals at threshold, time-lock expired); with an earlier
check failing it reverts with that earlier error instead. -/
theorem C8_unwhitelisted_target (ext : Vault → Bool) (now : Nat)
    (actionId : ActionId) (s : Vault)
    (ht : (s.pendingActions actionId).target ≠ 0)
    (hw : s.approvedStrategies ((s.pendingActions actionId).target) = false) :
    (∃ e, executeAction ext now actionId s = .error e) ∧
    (s.locked = false → s.paused = false →
      (s.pendingActions actionId).proposedAt ≠ 0 →
      (s.pendingActions actionId).executed = false →
      s.approvalThreshold ≤ (s.pendingActions actionId).approvals →
      (s.pendingActions actionId).executionTime ≤ now →
      executeAction ext now actionId s = .error .UnauthorizedStrategy) := by
  constructor
  · cases hres : executeAction ext now actionId s with
    | ok s2 =>
      rcases executeAction_ok_spec hres with h0 | hap2
      · exact absurd h0 ht
      · rw [hw] at hap2
        cases hap2
    | error e => exact ⟨e, rfl⟩
  · intro hl hp hex hne hap htl
    unfold executeAction
    rw [if_neg (by simp [hl]), if_neg (by simp [hp])]
    dsimp only
    rw [if_neg hex, if_neg (by simp [hne]), if_neg (Nat.not_lt.mpr hap),
      if_neg (Nat.not_lt.mpr htl), if_pos ⟨ht, hw⟩]

/-- Witness for C8_unwhitelisted_target at c8approved, where every earlier
check passes and the revert is UnauthorizedStrategy. -/
theorem C8_unwhitelisted_target_witness :
    (c8approved.pendingActions c8id).target ≠ 0 ∧
    executeAction extTrue 1 c8id c8approved = .error .UnauthorizedStrategy :=
  ⟨by decide,
    (C8_unwhitelisted_target extTrue 1 c8id c8approved (by decide) rfl).2
      rfl rfl (by decide) rfl (by decide) (by decide)⟩

/-- C9: refuted in its error-name part. Depositing 0 does revert and leave
the ledger unchanged, but with the error InsufficientBalance, not
InvalidAmount: TreasuryVault reuses InsufficientBalance for the zero-amount
check in both deposit and depositBNB (InvalidAmount is declared only by
StrategyExecutor). -/
theorem C9_counterexample :
    depositBNB 7 0 baseVault = .error .InsufficientBalance ∧
    deposit true 7 1 0 baseVault = .error .InsufficientBalance ∧
    baseVault.assetBalances 0 = 0 ∧
    Err.InsufficientBalance ≠ Err.InvalidAmount :=
  ⟨rfl, rfl, rfl, by decide⟩

/-- C9 (amended): depositing an amount of 0 (native or ERC-20) reverts with
InsufficientBalance and, the revert committing nothing, leaves every ledger
balance unchanged; a deposit succeeds only for amount > 0. -/
theorem C9_zero_deposit_rejected (sender token : Addr) (transferOk : Bool)
    (v : Nat) (s s2 : Vault)
    (hl : s.locked = false) (hp : s.paused = false) :
    depositBNB sender 0 s = .error .InsufficientBalance ∧
    deposit transferOk sender token 0 s = .error .InsufficientBalance ∧
    (depositBNB sender v s = .ok s2 → 0 < v) := by
  refine ⟨?_, ?_, ?_⟩
  · unfold depositBNB
    rw [if_neg (by simp [hl]), if_neg (by simp [hp]), if_pos rfl]
  · unfold deposit
    rw [if_neg (by simp [hl]), if_neg (by simp [hp]), if_pos rfl]
  · intro h
    by_cases hv : v = 0
    · subst hv
      unfold depositBNB at h
      rw [if_neg (by simp [hl]), if_neg (by simp [hp]), if_pos rfl] at h
      cases h
    · omega

/-- Witness for C9_zero_deposit_rejected at the freshly constructed vault. -/
theorem C9_zero_deposit_rejected_witness :
    depositBNB 7 0 baseVault = .error .InsufficientBalance ∧
    deposit true 7 1 0 baseVault = .error .InsufficientBalance ∧
    (depositBNB 7 100 baseVault = .ok emptyVault → 0 < 100) :=
  C9_zero_deposit_rejected 7 1 true 100 baseVault emptyVault rfl rfl

/-! List lemmas for C7: a sum of floored divisions is bounded by the floored
division of the sum. -/

lemma sum_map_div_le (l : List Addr) (g : Addr → Nat) (c : Nat) :
    (l.map (fun a => g a / c)).sum ≤ (l.map g).sum / c := by
  induction l with
  | nil => simp
  | cons x xs ih =>
    simp only [List.map_cons, List.sum_cons]
    exact le_trans (Nat.add_le_add_left ih _) (Nat.add_div_le_add_div _ _ _)

lemma percentage_sum_le (l : List Addr) (f : Addr → Nat) (T : Nat)
    (hT : (l.map f).sum = T) (hpos : 0 < T) :
    (l.map (fun a => f a * 10000 / T)).sum ≤ 10000 := by
  have h1 := sum_map_div_le l (fun a => f a * 10000) T
  have h2 : (l.map (fun a => f a * 10000)).sum = T * 10000 := by
    rw [List.sum_map_mul_right, hT, Nat.mul_comm]
  rw [h2, Nat.mul_div_cancel_left 10000 hpos] at h1
  exact h1

/-! Concrete state for C7: the single-owner vault with supported assets
[0, 1, 2] and one unit of balance in each; the total is 3 and each share
floors to 3333 basis points. -/

/-- baseVault after addSupportedAsset(1). -/
def c7assetA : Vault := okOr emptyVault (addSupportedAsset 7 1 baseVault)

/-- c7assetA after addSupportedAsset(2). -/
def c7assetB : Vault := okOr emptyVault (addSupportedAsset 7 2 c7assetA)

/-- c7assetB after depositBNB of 1. -/
def c7funded1 : Vault := okOr emptyVault (depositBNB 7 1 c7assetB)

/-- c7funded1 after deposit of 1 unit of token 1. -/
def c7funded2 : Vault := okOr emptyVault (deposit true 7 1 1 c7funded1)

/-- c7funded2 after deposit of 1 unit of token 2: balances 1, 1, 1. -/
def c7state : Vault := okOr emptyVault (deposit true 7 2 1 c7funded2)

/-- The allocation report of c7state. -/
def c7items : List AllocationItem := okOr [] (getAllocation c7state)

/-- C7: refuted in its exact-sum part. With three supported assets holding
one unit each, the total is 3 > 0 but the reported percentages are
3333 + 3333 + 3333 = 9999 basis points, not exactly 10000: the floor in
bal * 10000 / total loses up to one basis point per asset. -/
theorem C7_counterexample :
    totalBalance c7state = 3 ∧
    getAllocation c7state = .ok c7items ∧
    (c7items.map AllocationItem.percentage).sum = 9999 :=
  ⟨rfl, rfl, rfl⟩

/-- C7 (amended): when the total registered balance is positive the reported
percentages sum to AT MOST 10000 basis points (the floored divisions can fall
short, as the counterexample shows); when the total is 0 every reported
percentage is 0; the division is guarded by total > 0, so no division by
zero is performed. -/
theorem C7_allocation_sum (s : Vault) (items : List AllocationItem)
    (h : getAllocation s = .ok items) :
    (0 < totalBalance s →
      (items.map AllocationItem.percentage).sum ≤ 10000) ∧
    (totalBalance s = 0 → ∀ it ∈ items, it.percentage = 0) := by
  have hitems : items = s.supportedAssets.map (fun a =>
      ({ asset := a, amount := s.assetBalances a,
         percentage := if totalBalance s > 0 then
             s.assetBalances a * 10000 / totalBalance s
           else 0,
         valueUSD := 0 } : AllocationItem)) := by
    unfold getAllocation at h
    split at h
    · cases h
    · split at h
      · cases h
      · exact (Except.ok.inj h).symm
  subst hitems
  constructor
  · intro hpos
    rw [List.map_map]
    have hrw : (s.supportedAssets.map (AllocationItem.percentage ∘ (fun a =>
        ({ asset := a, amount := s.assetBalances a,
           percentage := if totalBalance s > 0 then
               s.assetBalances a * 10000 / totalBalance s
             else 0,
           valueUSD := 0 } : AllocationItem)))) =
        s.supportedAssets.map (fun a =>
          s.assetBalances a * 10000 / totalBalance s) := by
      simp [Function.comp, hpos]
    rw [hrw]
    exact percentage_sum_le s.supportedAssets s.assetBalances
      (totalBalance s) rfl hpos
  · intro h0 it hit
    simp only [List.mem_map] at hit
    obtain ⟨a, -, rfl⟩ := hit
    simp [h0]

/-- Witness for C7_allocation_sum at c7state. -/
theorem C7_allocation_sum_witness :
    (0 < totalBalance c7state →
      (c7items.map AllocationItem.percentage).sum ≤ 10000) ∧
    (totalBalance c7state = 0 → ∀ it ∈ c7items, it.percentage = 0) :=
  C7_allocation_sum c7state c7items rfl

/-! Concrete trace for C10: from the funded vault with the approved value-5
action (c3approved), an emergencyWithdraw of 98 native units leaves the
tracked balance at 2 < 5; executeAction then succeeds anyway and the
unchecked debit wraps mod 2^256. -/

/-- c3approved after emergencyWithdraw(native, to 9, amount 98) by owner 7:
tracked native balance 2, action c3id (value 5) still fully approved. -/
def c10drained : Vault :=
  okOr emptyVault (emergencyWithdraw true 7 0 9 98 c3approved)

/-- c10drained after executing c3id. -/
def c10post : Vault :=
  okOr emptyVault (executeAction extTrue 1 c3id c10drained)

lemma c10post_reachable : Reachable ⟨baseVault, 0⟩ ⟨c10post, 1⟩ :=
  reachStep 1 (.execute extTrue c3id) c10post
    (reachStep 1 (.emergencyWithdraw true 7 0 9 98) c10drained
      (reachStep 1 (.approve 7 c3id) c3approved
        (reachStep 1 (.propose 7 0 [] 5 .Stake) c3proposed
          (reachStep 1 (.depositBNB 7 100) c3funded
            (reachStep 1 (.grantRole 7 .EXECUTOR_ROLE 7) execVault
              Relation.ReflTransGen.refl (Nat.zero_le 1) rfl)
            (Nat.le_refl 1) rfl)
          (Nat.le_refl 1) rfl)
        (Nat.le_refl 1) rfl)
      (Nat.le_refl 1) rfl)
    (Nat.le_refl 1) rfl

/-- C10: confirmed. executeAction performs no check that the tracked native
balance covers the action value: in the reachable state c10drained (funds
left through emergencyWithdraw after the proposal) the otherwise-executable
action c3id has value 5 > balance 2, execution succeeds (it does not revert,
in particular not with InsufficientBalance), and the unchecked debit wraps
mod 2^256, leaving the tracked native balance at 2^256 - 3 = 2^256 minus
the deficit. -/
theorem C10_unchecked_debit_wraps :
    Reachable ⟨baseVault, 0⟩ ⟨c10post, 1⟩ ∧
    (c10drained.pendingActions c3id).value = 5 ∧
    c10drained.assetBalances 0 = 2 ∧
    executeAction extTrue 1 c3id c10drained = .ok c10post ∧
    c10post.assetBalances 0 = 2 ^ 256 - 3 :=
  ⟨c10post_reachable, rfl, rfl, rfl, by decide⟩

end AutoTreasury
